import Mathlib

/-!
Verification of the snapshot/rollback backing stores of a unification
table (`src/unify/backing_vec.rs`): the `UnificationStore` contract and
its two implementations, the in-place store `InPlace` (built on
`snapshot_vec::SnapshotVec`) and the persistent store `Persistent`
(built on a persistent vector).

Values stored per slot (`VarValue<K>`) are opaque to this layer, so
they are modelled by an arbitrary type `α`.  Operations that take
`&mut self` in Rust are modelled by explicit state passing; operations
that can panic on an out-of-bounds index return `Option`.
-/

namespace Ena

/-- The snapshot token of the in-place store, `sv::Snapshot`: a length
marker.  The field `length` is read directly by
`impl Measurable for sv::Snapshot` in `backing_vec.rs`. -/
structure Snapshot where
  length : Nat
deriving DecidableEq, Repr

/-- Mirrors `impl Measurable for sv::Snapshot`: `fn len(&self) -> usize { self.length }`. -/
def Snapshot.len (s : Snapshot) : Nat :=
  s.length

/-- Modelled from the spec: `snapshot_vec::SnapshotVec` is repository
code not present under `src/`.  Per the spec it holds "a single
contiguous growable array plus an internal append-only log sufficient
to know, for any still-open checkpoint, how many slots existed when it
opened"; snapshots are length markers, rollback truncates the array
back to the captured length, commit only releases the bookkeeping, and
the undo log records nothing for in-place mutations of existing slots
(the delegate in `backing_vec.rs` has `Undo = ()` and a no-op
`reverse`). -/
structure SnapshotVec (α : Type) where
  values : List α
  openSnapshotLens : List Nat
deriving DecidableEq, Repr

namespace SnapshotVec

variable {α : Type}

/-- Modelled from the spec: `SnapshotVec::new` — an empty array with no open checkpoints. -/
def new : SnapshotVec α :=
  ⟨[], []⟩

/-- Modelled from the spec: `SnapshotVec::len` — the number of live slots. -/
def len (s : SnapshotVec α) : Nat :=
  s.values.length

/-- Modelled from the spec: `SnapshotVec::start_snapshot` — records the
current length as a checkpoint marker and returns it as the snapshot. -/
def start_snapshot (s : SnapshotVec α) : Snapshot × SnapshotVec α :=
  (⟨s.values.length⟩, ⟨s.values, s.values.length :: s.openSnapshotLens⟩)

/-- Modelled from the spec: `SnapshotVec::rollback_to` — truncates the
array back to the snapshot's captured length and releases the most
recent checkpoint marker (snapshots are resolved in LIFO order).
Values present before the checkpoint are left untouched: the undo log
records nothing for mutations. -/
def rollback_to (s : SnapshotVec α) (snap : Snapshot) : SnapshotVec α :=
  ⟨s.values.take snap.length, s.openSnapshotLens.drop 1⟩

/-- Modelled from the spec: `SnapshotVec::commit` — releases the
bookkeeping for the most recent checkpoint; no data change. -/
def commit (s : SnapshotVec α) (_snap : Snapshot) : SnapshotVec α :=
  ⟨s.values, s.openSnapshotLens.drop 1⟩

/-- Modelled from the spec: `SnapshotVec::push` — appends one slot at
index `len()`. -/
def push (s : SnapshotVec α) (v : α) : SnapshotVec α :=
  ⟨s.values ++ [v], s.openSnapshotLens⟩

/-- Modelled from the spec: `SnapshotVec::update` — applies `op` to
slot `index` in place; panics (modelled as `none`) when the index is
out of bounds. -/
def update (s : SnapshotVec α) (i : Nat) (op : α → α) : Option (SnapshotVec α) :=
  match s.values[i]? with
  | some v => some ⟨s.values.set i (op v), s.openSnapshotLens⟩
  | none => none

/-- Modelled from the spec: `SnapshotVec::set_all` — overwrites every
slot `0..len()` with `value(index)`. -/
def set_all (s : SnapshotVec α) (value : Nat → α) : SnapshotVec α :=
  ⟨(List.range s.values.length).map value, s.openSnapshotLens⟩

/-- Modelled from the spec: indexed read `vec[i]`; panics (modelled as
`none`) when the index is out of bounds. -/
def get (s : SnapshotVec α) (i : Nat) : Option α :=
  s.values[i]?

end SnapshotVec

/-- `InPlace<K>`: backing store for an in-place unification table,
wrapping a `SnapshotVec` (`struct InPlace { values: sv::SnapshotVec<Delegate<K>> }`). -/
structure InPlace (α : Type) where
  values : SnapshotVec α
deriving DecidableEq, Repr

namespace InPlace

variable {α : Type}

/-- `impl Default for InPlace`: `InPlace { values: sv::SnapshotVec::new() }`. -/
def default : InPlace α :=
  ⟨SnapshotVec.new⟩

/-- `impl Measurable for InPlace`: `self.values.len()`. -/
def len (s : InPlace α) : Nat :=
  s.values.len

/-- `InPlace::start_snapshot`: `self.values.start_snapshot()`. -/
def start_snapshot (s : InPlace α) : Snapshot × InPlace α :=
  ((s.values.start_snapshot).1, ⟨(s.values.start_snapshot).2⟩)

/-- `InPlace::rollback_to`: `self.values.rollback_to(snapshot)`. -/
def rollback_to (s : InPlace α) (snap : Snapshot) : InPlace α :=
  ⟨s.values.rollback_to snap⟩

/-- `InPlace::commit`: `self.values.commit(snapshot)`. -/
def commit (s : InPlace α) (snap : Snapshot) : InPlace α :=
  ⟨s.values.commit snap⟩

/-- `InPlace::reset_unifications`: `self.values.set_all(|i| value(i as u32))`. -/
def reset_unifications (s : InPlace α) (value : Nat → α) : InPlace α :=
  ⟨s.values.set_all value⟩

/-- `InPlace::push`: `self.values.push(value)`. -/
def push (s : InPlace α) (v : α) : InPlace α :=
  ⟨s.values.push v⟩

/-- `InPlace::update`: `self.values.update(index, op)`; panics
(modelled as `none`) when the index is out of bounds. -/
def update (s : InPlace α) (i : Nat) (op : α → α) : Option (InPlace α) :=
  (s.values.update i op).map (fun sv => ⟨sv⟩)

/-- `impl ops::Index<usize> for InPlace`: `&self.values[index]`;
panics (modelled as `none`) when the index is out of bounds. -/
def index (s : InPlace α) (i : Nat) : Option α :=
  s.values.get i

/-- The `UnificationStore::values_since_snapshot` default method at
`InPlace`: `snapshot.len()..=self.len()`, an inclusive range.  It takes
`&mut self` in Rust, so the store is returned alongside the range. -/
def values_since_snapshot (s : InPlace α) (snap : Snapshot) :
    (Nat × Nat) × InPlace α :=
  ((snap.len, s.len), s)

end InPlace

/-- `Persistent<K>`: backing store built on the persistent vector
`DVec` (external crate `dogged`), modelled by its observable value
semantics as a list: cloning a persistent structure yields a value
whose slots are independent of later mutations of the original. -/
structure Persistent (α : Type) where
  values : List α
deriving DecidableEq, Repr

namespace Persistent

variable {α : Type}

/-- `impl Default for Persistent`: `Persistent { values: DVec::new() }`. -/
def default : Persistent α :=
  ⟨[]⟩

/-- `impl Measurable for Persistent`: `self.values.len()`. -/
def len (s : Persistent α) : Nat :=
  s.values.length

/-- `Persistent::start_snapshot`: `self.clone()` — the snapshot is a
clone of the whole store (`type Snapshot = Self`). -/
def start_snapshot (s : Persistent α) : Persistent α × Persistent α :=
  (s, s)

/-- `Persistent::rollback_to`: `*self = snapshot`. -/
def rollback_to (_s : Persistent α) (snap : Persistent α) : Persistent α :=
  snap

/-- `Persistent::commit`: empty body — a complete no-op. -/
def commit (s : Persistent α) (_snap : Persistent α) : Persistent α :=
  s

/-- `Persistent::reset_unifications`: `for i in 0..self.values.len() { self.values[i] = value(i as u32); }`. -/
def reset_unifications (s : Persistent α) (value : Nat → α) : Persistent α :=
  ⟨(List.range s.values.length).map value⟩

/-- `Persistent::push`: `self.values.push(value)`. -/
def push (s : Persistent α) (v : α) : Persistent α :=
  ⟨s.values ++ [v]⟩

/-- `Persistent::update`: `let p = &mut self.values[index]; op(p);`;
panics (modelled as `none`) when the index is out of bounds. -/
def update (s : Persistent α) (i : Nat) (op : α → α) : Option (Persistent α) :=
  match s.values[i]? with
  | some v => some ⟨s.values.set i (op v)⟩
  | none => none

/-- `impl ops::Index<usize> for Persistent`: `&self.values[index]`;
panics (modelled as `none`) when the index is out of bounds. -/
def index (s : Persistent α) (i : Nat) : Option α :=
  s.values[i]?

/-- The `UnificationStore::values_since_snapshot` default method at
`Persistent`: `snapshot.len()..=self.len()` where the snapshot's
`Measurable::len` is the cloned store's length.  It takes `&mut self`
in Rust, so the store is returned alongside the range. -/
def values_since_snapshot (s : Persistent α) (snap : Persistent α) :
    (Nat × Nat) × Persistent α :=
  ((snap.len, s.len), s)

end Persistent

/-- `RangeInclusive::contains`: `start <= i && i <= end` — membership
in the inclusive range returned by `values_since_snapshot`, here
represented as the pair (start, end). -/
def rangeContains (r : Nat × Nat) (i : Nat) : Bool :=
  decide (r.1 ≤ i) && decide (i ≤ r.2)

/-- A mutation performed on a store after a snapshot: an append or an
in-place update, as allowed by the `UnificationStore` contract. -/
inductive Op (α : Type) where
  | push (v : α)
  | update (i : Nat) (f : α → α)

/-- Applies one `Op` to a persistent store; `none` when an `update`
index is out of bounds (a panic in Rust). -/
def Persistent.applyOp (s : Persistent α) : Op α → Option (Persistent α)
  | Op.push v => some (s.push v)
  | Op.update i f => s.update i f

/-- Applies a sequence of mutations to a persistent store, stopping at
the first out-of-bounds update. -/
def Persistent.applyOps (s : Persistent α) : List (Op α) → Option (Persistent α)
  | [] => some s
  | op :: ops =>
    match s.applyOp op with
    | some s' => s'.applyOps ops
    | none => none

end Ena

namespace Ena

/-- C1 counterexample: the claim that the range returned by
`values_since_snapshot` does not include the index equal to the new
length fails on the code.  Snapshot taken at length `L = 0`, two
pushes bring the length to `2`, yet the returned inclusive range
`0..=2` contains the index `2`. -/
theorem C1_counterexample :
    rangeContains
      (InPlace.values_since_snapshot
        (InPlace.push (InPlace.push
          (InPlace.start_snapshot (InPlace.default : InPlace Nat)).2 10) 20)
        (InPlace.start_snapshot (InPlace.default : InPlace Nat)).1).1 2 = true ∧
    (InPlace.push (InPlace.push
      (InPlace.start_snapshot (InPlace.default : InPlace Nat)).2 10) 20).len = 2 := by
  decide

/-- C1 (amended): for every backing store, after a snapshot at length
`L` and two pushes, `values_since_snapshot` returns the inclusive
range from `L` to `L + 2`: it covers the newly introduced indices `L`
and `L + 1`, but it also includes the endpoint `L + 2` equal to the
new length. -/
theorem C1_values_since_snapshot_inclusive {α β : Type} (s : InPlace α) (v1 v2 : α)
    (t : Persistent β) (w1 w2 : β) :
    (((s.start_snapshot.2.push v1).push v2).values_since_snapshot s.start_snapshot.1).1
      = (s.len, s.len + 2) ∧
    rangeContains (s.len, s.len + 2) s.len = true ∧
    rangeContains (s.len, s.len + 2) (s.len + 1) = true ∧
    rangeContains (s.len, s.len + 2) (s.len + 2) = true ∧
    (((t.start_snapshot.2.push w1).push w2).values_since_snapshot t.start_snapshot.1).1
      = (t.len, t.len + 2) := by
  refine ⟨?_, ?_, ?_, ?_, ?_⟩ <;>
    simp [InPlace.values_since_snapshot, Persistent.values_since_snapshot,
      InPlace.start_snapshot, Persistent.start_snapshot, SnapshotVec.start_snapshot,
      InPlace.push, Persistent.push, SnapshotVec.push, InPlace.len, Persistent.len,
      SnapshotVec.len, Snapshot.len, rangeContains]

/-- C2: in the in-place store, an `update` of a slot that existed
before a snapshot was taken is not undone by a later `rollback_to`
that snapshot: after the rollback, the slot still reads the updated
value `f v`, exactly what it read right after the update. -/
theorem C2_inplace_update_survives_rollback {α : Type} (s : InPlace α)
    (i : Nat) (f : α → α) (v : α) (hv : s.index i = some v) (s' : InPlace α)
    (hu : (s.start_snapshot.2).update i f = some s') :
    (s'.rollback_to s.start_snapshot.1).index i = some (f v) ∧
    (s'.rollback_to s.start_snapshot.1).index i = s'.index i := by
  simp only [InPlace.index, SnapshotVec.get] at hv
  have hi : i < s.values.values.length := by
    by_contra h
    rw [List.getElem?_eq_none (Nat.le_of_not_lt h)] at hv
    cases hv
  simp only [InPlace.update, SnapshotVec.update, InPlace.start_snapshot,
    SnapshotVec.start_snapshot, hv, Option.map_some'] at hu
  obtain rfl := Option.some.inj hu
  have hlen : (s.values.values.set i (f v)).length = s.values.values.length :=
    List.length_set ..
  constructor <;>
    simp [InPlace.rollback_to, SnapshotVec.rollback_to, InPlace.index, SnapshotVec.get,
      InPlace.start_snapshot, SnapshotVec.start_snapshot, Snapshot.length,
      List.take_of_length_le (Nat.le_of_eq hlen), List.getElem?_set_self hi]

/-- C2 witness at a concrete input: push `5`, snapshot, update slot 0
to `9`, rollback; slot 0 still reads `9`. -/
theorem C2_witness :
    ((⟨⟨[9], [1]⟩⟩ : InPlace Nat).rollback_to ⟨1⟩).index 0 = some 9 :=
  (C2_inplace_update_survives_rollback (⟨⟨[5], []⟩⟩ : InPlace Nat) 0 (fun _ => 9) 5 rfl
    ⟨⟨[9], [1]⟩⟩ rfl).1

/-- C3: in the persistent store, for every sequence of `push` and
`update` operations performed after `start_snapshot`, `rollback_to`
the snapshot restores the exact snapshot-time state: the length and
every slot's value (including slots mutated via `update`) equal those
of the store when the snapshot was taken. -/
theorem C3_persistent_rollback_restores {α : Type} (s : Persistent α)
    (ops : List (Op α)) (s' : Persistent α)
    (_h : (s.start_snapshot.2).applyOps ops = some s') :
    (s'.rollback_to s.start_snapshot.1).len = s.len ∧
    ∀ i, (s'.rollback_to s.start_snapshot.1).index i = s.index i :=
  ⟨rfl, fun _ => rfl⟩

/-- C3 witness at a concrete input: from `[5]`, snapshot, push `7`
then update slot 0; rollback restores length `1` and slot 0 to `5`. -/
theorem C3_witness :
    ((⟨[6, 7]⟩ : Persistent Nat).rollback_to
      (⟨[5]⟩ : Persistent Nat).start_snapshot.1).len = (⟨[5]⟩ : Persistent Nat).len ∧
    ((⟨[6, 7]⟩ : Persistent Nat).rollback_to
      (⟨[5]⟩ : Persistent Nat).start_snapshot.1).index 0
        = (⟨[5]⟩ : Persistent Nat).index 0 :=
  ⟨(C3_persistent_rollback_restores (⟨[5]⟩ : Persistent Nat)
      [Op.push 7, Op.update 0 (fun v => v + 1)] ⟨[6, 7]⟩ rfl).1,
   (C3_persistent_rollback_restores (⟨[5]⟩ : Persistent Nat)
      [Op.push 7, Op.update 0 (fun v => v + 1)] ⟨[6, 7]⟩ rfl).2 0⟩

/-- C4 counterexample: in the order the claim states — `push`, then
`start_snapshot`, then `rollback_to` — the snapshot records the
post-push length, so the rollback leaves the length at `1`, not at
the pre-push value `0`. -/
theorem C4_counterexample :
    (InPlace.rollback_to
        (InPlace.start_snapshot ((InPlace.default : InPlace Nat).push 7)).2
        (InPlace.start_snapshot ((InPlace.default : InPlace Nat).push 7)).1).len = 1 ∧
    (InPlace.default : InPlace Nat).len = 0 := by
  decide

/-- C4 (amended): for every backing store and every starting state,
`start_snapshot` followed by `push` followed by `rollback_to` restores
`length()` to its pre-push value; the slot appended after the snapshot
(at index equal to the pre-push length) is unreachable after the
rollback, and every pre-existing slot reads its prior value. -/
theorem C4_snapshot_push_rollback {α β : Type} (s : InPlace α) (v : α)
    (t : Persistent β) (w : β) :
    ((s.start_snapshot.2.push v).rollback_to s.start_snapshot.1).len = s.len ∧
    ((s.start_snapshot.2.push v).rollback_to s.start_snapshot.1).index s.len = none ∧
    (∀ i, ((s.start_snapshot.2.push v).rollback_to s.start_snapshot.1).index i = s.index i) ∧
    ((t.start_snapshot.2.push w).rollback_to t.start_snapshot.1).len = t.len ∧
    ((t.start_snapshot.2.push w).rollback_to t.start_snapshot.1).index t.len = none ∧
    (∀ i, ((t.start_snapshot.2.push w).rollback_to t.start_snapshot.1).index i = t.index i) := by
  have hkey : (s.start_snapshot.2.push v).rollback_to s.start_snapshot.1 = s := by
    simp [InPlace.start_snapshot, SnapshotVec.start_snapshot, InPlace.push,
      SnapshotVec.push, InPlace.rollback_to, SnapshotVec.rollback_to, Snapshot.length,
      List.take_left]
  refine ⟨by rw [hkey], ?_, fun i => by rw [hkey], rfl, ?_, fun i => rfl⟩
  · rw [hkey]
    exact List.getElem?_eq_none (Nat.le_refl _)
  · exact List.getElem?_eq_none (Nat.le_refl _)

/-- C5: for every backing store, nested snapshots resolved in LIFO
order compose: from an empty table, snapshot S1 at length 0, push A,
snapshot S2 at length 1, push B, commit S2, rollback to S1 — the
length returns to 0 and both appended slots are gone. -/
theorem C5_nested_snapshots_lifo {α β : Type} (A B : α) (C D : β) :
    (let s0 : InPlace α := InPlace.default
     let p1 := s0.start_snapshot
     let p2 := (p1.2.push A).start_snapshot
     let t := (((p2.2.push B).commit p2.1).rollback_to p1.1)
     t.len = 0 ∧ t.index 0 = none ∧ t.index 1 = none) ∧
    (let s0 : Persistent β := Persistent.default
     let p1 := s0.start_snapshot
     let p2 := (p1.2.push C).start_snapshot
     let t := (((p2.2.push D).commit p2.1).rollback_to p1.1)
     t.len = 0 ∧ t.index 0 = none ∧ t.index 1 = none) :=
  ⟨⟨rfl, rfl, rfl⟩, ⟨rfl, rfl, rfl⟩⟩

/-- C6: for every backing store with `N` existing slots,
`reset_unifications` with a generator `value_fn` leaves the length
unchanged and makes every index `i < N` read `value_fn i`. -/
theorem C6_reset_unifications_rewrites_all {α β : Type} (s : InPlace α) (f : Nat → α)
    (t : Persistent β) (g : Nat → β) :
    (s.reset_unifications f).len = s.len ∧
    (∀ i, i < s.len → (s.reset_unifications f).index i = some (f i)) ∧
    (t.reset_unifications g).len = t.len ∧
    (∀ i, i < t.len → (t.reset_unifications g).index i = some (g i)) := by
  refine ⟨?_, ?_, ?_, ?_⟩
  · simp [InPlace.reset_unifications, SnapshotVec.set_all, InPlace.len, SnapshotVec.len]
  · intro i hi
    simp only [InPlace.len, SnapshotVec.len] at hi
    simp [InPlace.reset_unifications, SnapshotVec.set_all, InPlace.index, SnapshotVec.get,
      List.getElem?_range hi]
  · simp [Persistent.reset_unifications, Persistent.len]
  · intro i hi
    simp only [Persistent.len] at hi
    simp [Persistent.reset_unifications, Persistent.index, List.getElem?_range hi]

/-- C6 witness at a concrete input: resetting a two-slot store makes
slot 1 read the generator's output for index 1, for both variants. -/
theorem C6_witness :
    ((⟨⟨[3, 4], []⟩⟩ : InPlace Nat).reset_unifications (fun i => i + 10)).index 1
      = some 11 ∧
    ((⟨[3, 4]⟩ : Persistent Nat).reset_unifications (fun i => i * 2)).index 1
      = some 2 :=
  ⟨(C6_reset_unifications_rewrites_all (⟨⟨[3, 4], []⟩⟩ : InPlace Nat) (fun i => i + 10)
      (⟨[3, 4]⟩ : Persistent Nat) (fun i => i * 2)).2.1 1 (by decide),
   (C6_reset_unifications_rewrites_all (⟨⟨[3, 4], []⟩⟩ : InPlace Nat) (fun i => i + 10)
      (⟨[3, 4]⟩ : Persistent Nat) (fun i => i * 2)).2.2.2 1 (by decide)⟩

/-- C7: for every backing store, `commit` on a checkpoint under which
no mutation was performed leaves the store equal to the state from
just before the checkpoint was opened — every slot's value and the
length included; for the persistent variant `commit` is a complete
no-op on any snapshot. -/
theorem C7_commit_unmodified_checkpoint {α β : Type} (s : InPlace α)
    (t : Persistent β) (snap : Persistent β) :
    (s.start_snapshot.2).commit s.start_snapshot.1 = s ∧
    ((s.start_snapshot.2).commit s.start_snapshot.1).len = s.len ∧
    (∀ i, ((s.start_snapshot.2).commit s.start_snapshot.1).index i = s.index i) ∧
    (t.start_snapshot.2).commit t.start_snapshot.1 = t ∧
    t.commit snap = t :=
  ⟨rfl, rfl, fun _ => rfl, rfl, rfl⟩

/-- C8: for every backing store, `index i` has precondition
`i < length()`: exactly under that precondition the read yields a
value, namely the stored value at `i`; violating the precondition
yields no recoverable value (the Rust code panics, modelled as
`none`). -/
theorem C8_index_precondition {α β : Type} (s : InPlace α) (t : Persistent β)
    (i j : Nat) :
    (i < s.len ↔ (s.index i).isSome = true) ∧
    (∀ hi : i < s.values.values.length, s.index i = some (s.values.values.get ⟨i, hi⟩)) ∧
    (¬ i < s.len → s.index i = none) ∧
    (j < t.len ↔ (t.index j).isSome = true) ∧
    (∀ hj : j < t.values.length, t.index j = some (t.values.get ⟨j, hj⟩)) ∧
    (¬ j < t.len → t.index j = none) := by
  refine ⟨⟨?_, ?_⟩, ?_, ?_, ⟨?_, ?_⟩, ?_, ?_⟩
  · intro h
    simp only [InPlace.len, SnapshotVec.len] at h
    simp [InPlace.index, SnapshotVec.get, List.getElem?_eq_getElem h]
  · intro h
    by_contra hlt
    simp only [Nat.not_lt, InPlace.len, SnapshotVec.len] at hlt
    simp [InPlace.index, SnapshotVec.get, List.getElem?_eq_none hlt] at h
  · intro hi
    simp [InPlace.index, SnapshotVec.get, List.getElem?_eq_getElem hi]
  · intro h
    simp only [Nat.not_lt, InPlace.len, SnapshotVec.len] at h
    simp [InPlace.index, SnapshotVec.get, List.getElem?_eq_none h]
  · intro h
    simp only [Persistent.len] at h
    simp [Persistent.index, List.getElem?_eq_getElem h]
  · intro h
    by_contra hlt
    simp only [Nat.not_lt, Persistent.len] at hlt
    simp [Persistent.index, List.getElem?_eq_none hlt] at h
  · intro hj
    simp [Persistent.index, List.getElem?_eq_getElem hj]
  · intro h
    simp only [Nat.not_lt, Persistent.len] at h
    simp [Persistent.index, List.getElem?_eq_none h]

/-- C8 witness at concrete inputs: an in-bounds read returns the
stored value, an out-of-bounds read returns no value, for both
variants. -/
theorem C8_witness :
    ((⟨⟨[4], []⟩⟩ : InPlace Nat).index 0 = some 4) ∧
    ((⟨⟨[4], []⟩⟩ : InPlace Nat).index 5 = none) ∧
    ((⟨[8]⟩ : Persistent Nat).index 0 = some 8) ∧
    ((⟨[8]⟩ : Persistent Nat).index 3 = none) :=
  ⟨(C8_index_precondition (⟨⟨[4], []⟩⟩ : InPlace Nat) (⟨[8]⟩ : Persistent Nat) 0 0).2.1
      (by decide),
   (C8_index_precondition (⟨⟨[4], []⟩⟩ : InPlace Nat) (⟨[8]⟩ : Persistent Nat) 5 3).2.2.1
      (by decide),
   (C8_index_precondition (⟨⟨[4], []⟩⟩ : InPlace Nat) (⟨[8]⟩ : Persistent Nat) 0 0).2.2.2.2.1
      (by decide),
   (C8_index_precondition (⟨⟨[4], []⟩⟩ : InPlace Nat) (⟨[8]⟩ : Persistent Nat) 5 3).2.2.2.2.2
      (by decide)⟩

/-- C9: for every backing store, `values_since_snapshot` leaves the
store completely unchanged (it is returned as-is alongside the range),
and the range it returns depends only on the snapshot's recorded
length and the store's current length. -/
theorem C9_values_since_snapshot_pure {α β : Type} (s1 s2 : InPlace α)
    (n1 n2 : Snapshot) (t1 t2 u1 u2 : Persistent β) :
    (s1.values_since_snapshot n1).2 = s1 ∧
    (t1.values_since_snapshot u1).2 = t1 ∧
    (n1.length = n2.length → s1.len = s2.len →
      (s1.values_since_snapshot n1).1 = (s2.values_since_snapshot n2).1) ∧
    (u1.len = u2.len → t1.len = t2.len →
      (t1.values_since_snapshot u1).1 = (t2.values_since_snapshot u2).1) := by
  refine ⟨rfl, rfl, ?_, ?_⟩ <;> intro h1 h2 <;>
    simp [InPlace.values_since_snapshot, Persistent.values_since_snapshot, Snapshot.len,
      h1, h2]

/-- C9 witness at concrete inputs: two stores of equal length with
equal-length snapshots yield the same range, and the store comes back
unchanged. -/
theorem C9_witness :
    ((⟨⟨[1], [0]⟩⟩ : InPlace Nat).values_since_snapshot ⟨0⟩).1
      = ((⟨⟨[2], []⟩⟩ : InPlace Nat).values_since_snapshot ⟨0⟩).1 ∧
    ((⟨⟨[1], [0]⟩⟩ : InPlace Nat).values_since_snapshot ⟨0⟩).2
      = (⟨⟨[1], [0]⟩⟩ : InPlace Nat) :=
  ⟨(C9_values_since_snapshot_pure (⟨⟨[1], [0]⟩⟩ : InPlace Nat) (⟨⟨[2], []⟩⟩ : InPlace Nat)
      ⟨0⟩ ⟨0⟩ (⟨[]⟩ : Persistent Nat) ⟨[]⟩ ⟨[]⟩ ⟨[]⟩).2.2.1 rfl rfl,
   (C9_values_since_snapshot_pure (⟨⟨[1], [0]⟩⟩ : InPlace Nat) (⟨⟨[2], []⟩⟩ : InPlace Nat)
      ⟨0⟩ ⟨0⟩ (⟨[]⟩ : Persistent Nat) ⟨[]⟩ ⟨[]⟩ ⟨[]⟩).1⟩

/-- C10: a default-constructed store of either variant is empty:
its length is 0 and no index is readable. -/
theorem C10_default_empty (α β : Type) :
    (InPlace.default : InPlace α).len = 0 ∧
    (∀ i, (InPlace.default : InPlace α).index i = none) ∧
    (Persistent.default : Persistent β).len = 0 ∧
    (∀ i, (Persistent.default : Persistent β).index i = none) :=
  ⟨rfl, fun _ => rfl, rfl, fun _ => rfl⟩

end Ena
